import Mathlib

/-!
# Verification of the Circle I2S sound base device (`lib/i2ssoundbasedevice.cpp`)

Shallow embedding of `CI2SSoundBaseDevice`.  Pure computations (the clock
divider, the codec command tables with their byte packing) are translated
directly as functions; the stateful orchestration (`Start`, the completion
handlers, `RunI2S`) is translated as explicit state passing over a small
device-state record, with every externally visible action (I2C write, DMA
pipeline start, register write, GPIO pin claim, clock start) recorded in an
effect trace.  Fallible external collaborators (the I2C master's `Write`,
`CDMASoundBuffers::Start`) are supplied through an environment record.
-/

namespace Circle

/-- `TDeviceMode`: which directions of the duplex pipeline are active
(fixed at construction). -/
inductive TDeviceMode
  | DeviceModeTXOnly
  | DeviceModeRXOnly
  | DeviceModeTXRX
deriving DecidableEq, Repr

/-- Machine model, as far as `RunI2S` distinguishes it (the three early
models use pin base 28 / AltFunction2, everything else 18 / AltFunction0). -/
inductive TMachineModel
  | MachineModelA
  | MachineModelBRelease2MB256
  | MachineModelBRelease2MB512
  | MachineModelOther
deriving DecidableEq, Repr

/-- The four PCM GPIO pins owned by the device
(`m_PCMCLKPin`, `m_PCMFSPin`, `m_PCMDINPin`, `m_PCMDOUTPin`). -/
inductive PinRole
  | pcmCLK
  | pcmFS
  | pcmDIN
  | pcmDOUT
deriving DecidableEq, Repr

-- Constants from the top of i2ssoundbasedevice.cpp.

/-- `#define CHANS 2` — 2 I2S stereo channels. -/
def CHANS : Nat := 2

/-- `#define CHANLEN 32` — width of a channel slot in bits. -/
def CHANLEN : Nat := 32

def CS_A_RXSEX : Nat := 1 <<< 23
def CS_A_DMAEN : Nat := 1 <<< 9
def CS_A_TXON : Nat := 1 <<< 2
def CS_A_RXON : Nat := 1 <<< 1

def MODE_A_CLKI : Nat := 1 <<< 22
def MODE_A_CLKM : Nat := 1 <<< 23
def MODE_A_FSI : Nat := 1 <<< 20
def MODE_A_FSM : Nat := 1 <<< 21
def MODE_A_FLEN__SHIFT : Nat := 10
def MODE_A_FSLEN__SHIFT : Nat := 0

def TXC_A_CH1WEX : Nat := 1 <<< 31
def TXC_A_CH1EN : Nat := 1 <<< 30
def TXC_A_CH1POS__SHIFT : Nat := 20
def TXC_A_CH1WID__SHIFT : Nat := 16
def TXC_A_CH2WEX : Nat := 1 <<< 15
def TXC_A_CH2EN : Nat := 1 <<< 14
def TXC_A_CH2POS__SHIFT : Nat := 4
def TXC_A_CH2WID__SHIFT : Nat := 0

/-- Construction-time parameters of `CI2SSoundBaseDevice` that the claims
refer to (all immutable for the object's lifetime). -/
structure Config where
  deviceMode : TDeviceMode
  hasI2CMaster : Bool
  i2cAddress : Nat
  chunkSize : Nat
deriving DecidableEq, Repr

/-- The mutable device state shared between `Start` and the completion
handlers: the sticky fault flag `m_bError` and the sticky codec-initialized
flag `m_bI2CInited`. -/
structure DeviceState where
  bError : Bool
  bI2CInited : Bool
deriving DecidableEq, Repr

/-- One externally visible action of the device. -/
inductive Effect
  | clockStart (divI divF : Nat) (fracEnable : Bool)
  | i2c (addr : Nat) (data : List Nat)
  | csWriteZero
  | fifoClear
  | txcConfig (v : Nat)
  | rxcConfig (v : Nat)
  | modeConfig (v : Nat)
  | pinClaim (role : PinRole) (pin : Nat)
  | csStandbyOff
  | csEnableBit
  | dreqTx
  | dreqRx
  | csDmaEn
  | dmaStartTx
  | dmaStartRx
  | csTxRxOn (bits : Nat)
  | dmaCancelTx
  | dmaCancelRx
deriving DecidableEq, Repr

/-- Results of the fallible external collaborators: `m_pI2CMaster->Write`
(bytes transferred for a given address and payload), the two
`CDMASoundBuffers::Start` calls, and `GetChunk`. -/
structure Env where
  i2cWrite : Nat → List Nat → Nat
  txStartOk : Bool
  rxStartOk : Bool
  getChunk : Nat → Nat

/-- Clock divider computation from the constructor (master role,
lines 112–130): `nDivI = nClockFreq / (CHANLEN*CHANS) / nSampleRate`,
`nTemp = nClockFreq / (CHANLEN*CHANS) % nSampleRate`,
`nDivF = (nTemp * 4096 + nSampleRate/2) / nSampleRate`, with a carry into
`nDivI` when `nDivF > 4095`. -/
def computeDivider (nClockFreq nSampleRate : Nat) : Nat × Nat :=
  let nDivI := nClockFreq / (CHANLEN * CHANS) / nSampleRate
  let nTemp := nClockFreq / (CHANLEN * CHANS) % nSampleRate
  let nDivF := (nTemp * 4096 + nSampleRate / 2) / nSampleRate
  if nDivF > 4095 then (nDivI + 1, 0) else (nDivI, nDivF)

/-- The clock-related effects of the constructor: in master role
(`bSlave = false`) it starts the PCM clock with the computed divider pair
and `nDivF > 0` as the fractional-enable flag; in slave role it does not
touch the clock. -/
def constructorClockEffects (bSlave : Bool) (nClockFreq nSampleRate : Nat) :
    List Effect :=
  if bSlave then []
  else
    [Effect.clockStart (computeDivider nClockFreq nSampleRate).1
      (computeDivider nClockFreq nSampleRate).2
      (decide (0 < (computeDivider nClockFreq nSampleRate).2))]

/-- Refinement target for C1, following the spec's words: `B = F / (W×C)`,
`DivI = B / S`, `R = B mod S`, `DivF = round(R × 4096 / S)` in exact
(rational) arithmetic, carrying into `DivI` when `DivF` exceeds 4095. -/
def dividerSpec (F S : Nat) : Nat × Nat :=
  let B := F / (CHANLEN * CHANS)
  let DivI := B / S
  let R := B % S
  let DivF := (round ((R * 4096 : ℚ) / (S : ℚ))).toNat
  if DivF > 4095 then (DivI + 1, 0) else (DivI, DivF)

/-- The PCM51xx init table (`InitPCM51xx`): three (register, value) pairs,
each sent as one two-byte transaction. -/
def pcm51xxInitBytes : List (List Nat) :=
  [[0x0d, 0x10], [0x25, 0x08], [0x41, 0x04]]

/-- `#define SHIFT_BIT(r, v) {((v&0x0100)>>8) | (r<<1), (v&0xff)}` — packs a
7-bit WM8960 register address and a 9-bit value into two bytes. -/
def SHIFT_BIT (r v : Nat) : List Nat :=
  [((v &&& 0x0100) >>> 8) ||| (r <<< 1), v &&& 0xff]

/-- The WM8960 init table (`InitWM8960`), written exactly as in the source
via `SHIFT_BIT`. -/
def wm8960InitBytes : List (List Nat) :=
  [SHIFT_BIT 15 0x000,
   SHIFT_BIT 25 0x1FC,
   SHIFT_BIT 26 0x1F9,
   SHIFT_BIT 47 0x03C,
   SHIFT_BIT 4 0x001,
   SHIFT_BIT 52 0x027,
   SHIFT_BIT 53 0x086,
   SHIFT_BIT 54 0x0C2,
   SHIFT_BIT 55 0x026,
   SHIFT_BIT 5 0x000,
   SHIFT_BIT 7 0x002,
   SHIFT_BIT 20 0x0F9,
   SHIFT_BIT 17 0x1FB,
   SHIFT_BIT 18 0x000,
   SHIFT_BIT 19 0x032,
   SHIFT_BIT 2 0x16F,
   SHIFT_BIT 3 0x16F,
   SHIFT_BIT 40 0x17F,
   SHIFT_BIT 41 0x178,
   SHIFT_BIT 51 0x08D,
   SHIFT_BIT 0 0x13F,
   SHIFT_BIT 1 0x13F,
   SHIFT_BIT 32 0x138,
   SHIFT_BIT 33 0x138,
   SHIFT_BIT 49 0x0F7,
   SHIFT_BIT 10 0x1FF,
   SHIFT_BIT 11 0x1FF,
   SHIFT_BIT 34 0x100,
   SHIFT_BIT 37 0x100]

/-- The shared loop body of `InitPCM51xx`/`InitWM8960`: send each two-byte
command via `m_pI2CMaster->Write`, returning `FALSE` at the first command
whose write does not transfer exactly `sizeof(command) = 2` bytes.  Every
attempted transaction appears in the effect trace. -/
def writeCommands (env : Env) (addr : Nat) : List (List Nat) → Bool × List Effect
  | [] => (true, [])
  | cmd :: rest =>
      if env.i2cWrite addr cmd = 2 then
        let r := writeCommands env addr rest
        (r.1, Effect.i2c addr cmd :: r.2)
      else
        (false, [Effect.i2c addr cmd])

/-- `CI2SSoundBaseDevice::InitPCM51xx` (Variant A). -/
def InitPCM51xx (env : Env) (ucI2CAddress : Nat) : Bool × List Effect :=
  writeCommands env ucI2CAddress pcm51xxInitBytes

/-- `CI2SSoundBaseDevice::InitWM8960` (Variant B). -/
def InitWM8960 (env : Env) (ucI2CAddress : Nat) : Bool × List Effect :=
  writeCommands env ucI2CAddress wm8960InitBytes

/-- The optional DAC-init step at the top of `Start` (lines 163–201):
performed only when the mode is not RX-only, an I2C master was supplied and
`m_bI2CInited` is still clear.  A nonzero address is used as given (0x1A ⇒
WM8960, otherwise PCM51xx) and must succeed, else `m_bError` is set and the
result is fatal (`false`).  Address 0 auto-probes PCM51xx at 0x4C, then
PCM51xx at 0x4D, then WM8960 at 0x1A, ignoring failure.  On every non-fatal
outcome `m_bI2CInited` is set. -/
def startCodec (cfg : Config) (env : Env) (s : DeviceState) :
    Bool × DeviceState × List Effect :=
  if cfg.deviceMode ≠ TDeviceMode.DeviceModeRXOnly ∧ cfg.hasI2CMaster = true
      ∧ s.bI2CInited = false then
    if cfg.i2cAddress ≠ 0 then
      if cfg.i2cAddress ≠ 0x1A then
        let r := InitPCM51xx env cfg.i2cAddress
        if r.1 then (true, { s with bI2CInited := true }, r.2)
        else (false, { s with bError := true }, r.2)
      else
        let r := InitWM8960 env cfg.i2cAddress
        if r.1 then (true, { s with bI2CInited := true }, r.2)
        else (false, { s with bError := true }, r.2)
    else
      let r1 := InitPCM51xx env 0x4C
      if r1.1 then (true, { s with bI2CInited := true }, r1.2)
      else
        let r2 := InitPCM51xx env 0x4D
        if r2.1 then (true, { s with bI2CInited := true }, r1.2 ++ r2.2)
        else
          let r3 := InitWM8960 env 0x1A
          (true, { s with bI2CInited := true }, r1.2 ++ r2.2 ++ r3.2)
  else
    (true, s, [])

/-- The DREQ-threshold writes of `Start` (lines 206–220): only when
`m_nChunkSize < 64`, one per active direction. -/
def dreqEffects (cfg : Config) : List Effect :=
  if cfg.chunkSize < 64 then
    (if cfg.deviceMode ≠ TDeviceMode.DeviceModeRXOnly then [Effect.dreqTx] else [])
      ++ (if cfg.deviceMode ≠ TDeviceMode.DeviceModeTXOnly then [Effect.dreqRx] else [])
  else []

/-- The TXON/RXON bits `Start` accumulates in `nTXRXOn`. -/
def txrxBits (cfg : Config) : Nat :=
  (if cfg.deviceMode ≠ TDeviceMode.DeviceModeRXOnly then CS_A_TXON else 0)
    ||| (if cfg.deviceMode ≠ TDeviceMode.DeviceModeTXOnly then
          CS_A_RXON ||| CS_A_RXSEX else 0)

/-- `CI2SSoundBaseDevice::Start` (lines 155–260): refuse if `m_bError`;
optional codec init (fatal only for a pinned nonzero address); DREQ
thresholds for small chunks; set `CS_A_DMAEN`; start the TX then the RX
DMA buffer pipeline as the mode requires, each failure setting `m_bError`
and returning `FALSE`; only after both required pipelines started is the
accumulated `nTXRXOn` written to the CS register. -/
def Start (cfg : Config) (env : Env) (s : DeviceState) :
    Bool × DeviceState × List Effect :=
  if s.bError then (false, s, [])
  else
    let c := startCodec cfg env s
    if !c.1 then (false, c.2.1, c.2.2)
    else
      let e2 := c.2.2 ++ dreqEffects cfg ++ [Effect.csDmaEn]
      if cfg.deviceMode ≠ TDeviceMode.DeviceModeRXOnly ∧ env.txStartOk = false then
        (false, { c.2.1 with bError := true }, e2 ++ [Effect.dmaStartTx])
      else
        let e3 := e2 ++ (if cfg.deviceMode ≠ TDeviceMode.DeviceModeRXOnly then
          [Effect.dmaStartTx] else [])
        if cfg.deviceMode ≠ TDeviceMode.DeviceModeTXOnly ∧ env.rxStartOk = false then
          (false, { c.2.1 with bError := true }, e3 ++ [Effect.dmaStartRx])
        else
          let e4 := e3 ++ (if cfg.deviceMode ≠ TDeviceMode.DeviceModeTXOnly then
            [Effect.dmaStartRx] else [])
          (true, c.2.1, e4 ++ [Effect.csTxRxOn (txrxBits cfg)])

/-- `CI2SSoundBaseDevice::RunI2S` (lines 292–376) as its effect trace:
disable, clear FIFOs, program the TXC/RXC slot registers and the mode
register (with CLKM/FSM added in slave role), claim the clock and frame-sync
pins, the data-in pin unless TX-only, the data-out pin unless RX-only,
then clear standby and set the enable bit. -/
def RunI2S (cfg : Config) (bSlave : Bool) (model : TMachineModel) : List Effect :=
  let txcVal := TXC_A_CH1WEX ||| TXC_A_CH1EN ||| (1 <<< TXC_A_CH1POS__SHIFT)
    ||| (0 <<< TXC_A_CH1WID__SHIFT) ||| TXC_A_CH2WEX ||| TXC_A_CH2EN
    ||| ((CHANLEN + 1) <<< TXC_A_CH2POS__SHIFT) ||| (0 <<< TXC_A_CH2WID__SHIFT)
  let nModeA0 := MODE_A_CLKI ||| MODE_A_FSI
    ||| ((CHANS * CHANLEN - 1) <<< MODE_A_FLEN__SHIFT)
    ||| (CHANLEN <<< MODE_A_FSLEN__SHIFT)
  let nModeA := if bSlave then nModeA0 ||| MODE_A_CLKM ||| MODE_A_FSM else nModeA0
  let nPinBase := if model = TMachineModel.MachineModelA
      ∨ model = TMachineModel.MachineModelBRelease2MB256
      ∨ model = TMachineModel.MachineModelBRelease2MB512 then 28 else 18
  [Effect.csWriteZero, Effect.fifoClear,
   Effect.txcConfig txcVal, Effect.rxcConfig txcVal, Effect.modeConfig nModeA,
   Effect.pinClaim PinRole.pcmCLK nPinBase,
   Effect.pinClaim PinRole.pcmFS (nPinBase + 1)]
  ++ (if cfg.deviceMode ≠ TDeviceMode.DeviceModeTXOnly then
        [Effect.pinClaim PinRole.pcmDIN (nPinBase + 2)] else [])
  ++ (if cfg.deviceMode ≠ TDeviceMode.DeviceModeRXOnly then
        [Effect.pinClaim PinRole.pcmDOUT (nPinBase + 3)] else [])
  ++ [Effect.csStandbyOff, Effect.csEnableBit]

/-- `CI2SSoundBaseDevice::TXCompletedHandler` (lines 407–421): on
`bStatus = FALSE` set `m_bError` and return 0; else return
`GetChunk(pBuffer, nChunkSize)`. -/
def TXCompletedHandler (env : Env) (bStatus : Bool) (nChunkSize : Nat)
    (s : DeviceState) : Nat × DeviceState :=
  if !bStatus then (0, { s with bError := true })
  else (env.getChunk nChunkSize, s)

/-- `CI2SSoundBaseDevice::RXCompletedHandler` (lines 423–439): on
`bStatus = FALSE` set `m_bError` and return 0; else hand the chunk to
`PutChunk` and return 0. -/
def RXCompletedHandler (_env : Env) (bStatus : Bool) (_nChunkSize : Nat)
    (s : DeviceState) : Nat × DeviceState :=
  if !bStatus then (0, { s with bError := true })
  else (0, s)

/-- `CI2SSoundBaseDevice::GetRangeMin` (line 145): `-(1 << 23)+1`,
independent of every constructor parameter. -/
def GetRangeMin (_cfg : Config) : Int := -(((1 <<< 23 : Nat) : Int)) + 1

/-- `CI2SSoundBaseDevice::GetRangeMax` (line 150): `(1 << 23)-1`. -/
def GetRangeMax (_cfg : Config) : Int := ((1 <<< 23 : Nat) : Int) - 1

/-- A sequence of `Start` calls (one `Env` per call), threading the device
state and collecting each call's effect trace. -/
def startSeq (cfg : Config) : List Env → DeviceState → DeviceState × List (List Effect)
  | [], s => (s, [])
  | e :: es, s =>
      let r := Start cfg e s
      let rest := startSeq cfg es r.2.1
      (rest.1, r.2.2 :: rest.2)

/-- Recognizes a two-wire (I2C) write transaction in an effect trace. -/
def isI2CWrite : Effect → Bool
  | Effect.i2c _ _ => true
  | _ => false

/-- Recognizes the final TX-enable/RX-enable register write of `Start`. -/
def isTxRxOnWrite : Effect → Bool
  | Effect.csTxRxOn _ => true
  | _ => false

/-- Recognizes the claim of the GPIO pin with the given role. -/
def claimsPin (role : PinRole) : Effect → Bool
  | Effect.pinClaim r _ => r == role
  | _ => false

/-- Index of the first command in the list whose I2C write does not
transfer exactly 2 bytes (specification-side helper for C9). -/
def firstFailIdx (env : Env) (addr : Nat) : List (List Nat) → Option Nat
  | [] => none
  | cmd :: rest =>
      if env.i2cWrite addr cmd = 2 then (firstFailIdx env addr rest).map (· + 1)
      else some 0

/-- The (register, value) pairs of the WM8960 table, specification-side
(C9 relates `wm8960InitBytes` to this list through the packing formula). -/
def wm8960RegVals : List (Nat × Nat) :=
  [(15, 0x000), (25, 0x1FC), (26, 0x1F9), (47, 0x03C),
   (4, 0x001), (52, 0x027), (53, 0x086), (54, 0x0C2), (55, 0x026),
   (5, 0x000), (7, 0x002),
   (20, 0x0F9), (17, 0x1FB), (18, 0x000), (19, 0x032),
   (2, 0x16F), (3, 0x16F),
   (40, 0x17F), (41, 0x178), (51, 0x08D),
   (0, 0x13F), (1, 0x13F),
   (32, 0x138), (33, 0x138),
   (49, 0x0F7), (10, 0x1FF), (11, 0x1FF), (34, 0x100), (37, 0x100)]

-- ## Helper lemmas

/-- Integer rounding idiom: `(a + s/2) / s` computes `round (a / s)`. -/
lemma toNat_round_div (a s : Nat) (hs : 0 < s) :
    (round ((a : ℚ) / (s : ℚ))).toNat = (a + s / 2) / s := by
  rw [round_eq]
  have h1 : (a : ℚ) / (s : ℚ) + 1 / 2 = (((2 * a + s : Nat) : ℤ) : ℚ) / ((2 * s : Nat) : ℚ) := by
    have hsq : (s : ℚ) ≠ 0 := by positivity
    push_cast
    field_simp
    ring
  rw [h1, Rat.floor_intCast_div_natCast]
  have h2 : ((2 * a + s : Nat) : ℤ) / ((2 * s : Nat) : ℤ) = (((2 * a + s) / (2 * s) : Nat) : ℤ) :=
    (Int.natCast_div _ _).symm
  rw [h2, Int.toNat_natCast]
  rw [← Nat.div_div_eq_div_mul, Nat.mul_add_div (by norm_num : 0 < 2)]

/-- `round` applied to the fractional-divider expression of `dividerSpec`. -/
lemma round_frac_eq (r s : Nat) (hs : 0 < s) :
    (round ((r * 4096 : ℚ) / (s : ℚ))).toNat = (r * 4096 + s / 2) / s := by
  have h : ((r * 4096 : Nat) : ℚ) = (r * 4096 : ℚ) := by push_cast; ring
  rw [← h, toNat_round_div _ _ hs]

-- ## Claim theorems

/-- C1: in master role the clock divider is computed as `B = F/(W×C)` with
`W×C = 64`, `DivI = B/S`, `R = B mod S`, `DivF = round(R·4096/S)` in exact
integer arithmetic, carrying into `DivI` (and resetting `DivF` to 0) when
rounding pushes `DivF` above 4095; in slave role no divisor is computed and
the clock generator is not started. -/
theorem c1_clock_divider (F S : Nat) (hS : 0 < S) :
    computeDivider F S = dividerSpec F S ∧
    constructorClockEffects true F S = [] := by
  constructor
  · show (let nDivI := F / (CHANLEN * CHANS) / S;
      let nTemp := F / (CHANLEN * CHANS) % S;
      let nDivF := (nTemp * 4096 + S / 2) / S;
      if nDivF > 4095 then (nDivI + 1, 0) else (nDivI, nDivF)) = _
    simp only [computeDivider, dividerSpec, round_frac_eq _ _ hS]
  · rfl

theorem c1_clock_divider_witness :
    0 < 44100 ∧
    (computeDivider 19200000 44100 = dividerSpec 19200000 44100 ∧
      constructorClockEffects true 19200000 44100 = []) :=
  ⟨by decide, c1_clock_divider 19200000 44100 (by decide)⟩

/-- C3 (counterexample): at `F = 19200000`, `S = 44100` the code's remainder
is `300000 mod 44100 = 35400`, not the `24600` of the claim, and the
fractional divider is 3288, not 2285. -/
theorem c3_example_counterexample :
    19200000 / (CHANLEN * CHANS) = 300000 ∧
    19200000 / (CHANLEN * CHANS) / 44100 = 6 ∧
    19200000 / (CHANLEN * CHANS) % 44100 = 35400 ∧
    ¬(19200000 / (CHANLEN * CHANS) % 44100 = 24600) ∧
    (computeDivider 19200000 44100).2 = 3288 ∧
    ¬(computeDivider 19200000 44100).2 = 2285 := by
  decide

/-- C3 (amended): for `F = 19200000` and `S = 44100` the calculator yields
`B = 300000`, `DivI = 6`, remainder `R = 35400` and `DivF = 3288`. -/
theorem c3_example_amended :
    19200000 / (CHANLEN * CHANS) = 300000 ∧
    19200000 / (CHANLEN * CHANS) % 44100 = 35400 ∧
    computeDivider 19200000 44100 = (6, 3288) := by
  decide

/-- C4: a completion callback invoked with `bStatus = FALSE` sets the sticky
fault flag and returns 0, and any `Start` on a faulted state returns failure
immediately with an empty effect trace (no codec transaction, no register
write, no DMA pipeline start) and an unchanged state — so the flag stays set
for every subsequent call. -/
theorem c4_fault_sticky (cfg : Config) (env env2 : Env) (s : DeviceState)
    (n : Nat) (b : Bool) :
    (TXCompletedHandler env false n s).2.bError = true ∧
    (TXCompletedHandler env false n s).1 = 0 ∧
    (RXCompletedHandler env false n s).2.bError = true ∧
    (RXCompletedHandler env false n s).1 = 0 ∧
    Start cfg env2 ⟨true, b⟩ = (false, ⟨true, b⟩, []) := by
  refine ⟨rfl, rfl, rfl, rfl, ?_⟩
  simp [Start]

/-- C10: the sample-range accessors return the symmetric 24-bit signed range
`-(2^23)+1 = -8388607` and `(2^23)-1 = 8388607` for every configuration. -/
theorem c10_sample_range (cfg : Config) :
    GetRangeMin cfg = -8388607 ∧ GetRangeMax cfg = 8388607 := by
  constructor <;> rfl

/-- `writeCommands` sends the whole command list when every write transfers
2 bytes, and otherwise stops right after the first failing write, returning
failure. -/
lemma writeCommands_spec (env : Env) (addr : Nat) (cmds : List (List Nat)) :
    writeCommands env addr cmds =
      match firstFailIdx env addr cmds with
      | none => (true, cmds.map (Effect.i2c addr))
      | some k => (false, (cmds.take (k + 1)).map (Effect.i2c addr)) := by
  induction cmds with
  | nil => rfl
  | cons c rest ih =>
    by_cases h : env.i2cWrite addr c = 2
    · rw [writeCommands, firstFailIdx, if_pos h, if_pos h, ih]
      cases hf : firstFailIdx env addr rest with
      | none => simp
      | some k => simp
    · rw [writeCommands, firstFailIdx, if_neg h, if_neg h]
      simp

/-- C9: every Variant B transaction for a table entry `(register, value)`
(7-bit register, 9-bit value) sends exactly the two bytes
`{ ((value>>8)&1) | (register<<1), value & 0xFF }`, and the sequence aborts
with failure right after the first transaction whose write does not
transfer exactly 2 bytes. -/
theorem c9_wm8960_transactions (env : Env) (addr : Nat) :
    (InitWM8960 env addr =
      match firstFailIdx env addr wm8960InitBytes with
      | none => (true, wm8960InitBytes.map (Effect.i2c addr))
      | some k => (false, (wm8960InitBytes.take (k + 1)).map (Effect.i2c addr)))
    ∧ wm8960InitBytes
        = wm8960RegVals.map
            (fun p => [((p.2 >>> 8) &&& 1) ||| (p.1 <<< 1), p.2 &&& 0xff])
    ∧ wm8960RegVals.all (fun p => p.1 < 128 && p.2 < 512) = true :=
  ⟨writeCommands_spec env addr wm8960InitBytes, by decide, by decide⟩

/-- C2 (counterexample): `F = 64` is divisible by 64 and `S = 8000` lies in
[8000, 192000], yet the divider pair has `DivI = 0`, refuting `DivI ≥ 1`
(and the approximation bound) as universally stated. -/
theorem c2_divider_counterexample :
    (64 ∣ 64) ∧ (8000 : Nat) ≤ 8000 ∧ (8000 : Nat) ≤ 192000 ∧
    ¬(1 ≤ (computeDivider 64 8000).1) := by
  decide

/-- C2 (amended): for `F` divisible by 64, `S ∈ [8000, 192000]` and
`64·S ≤ F` (so that the target bit clock does not exceed the reference),
the divider pair satisfies `DivI ≥ 1`, `DivF ≤ 4095`, and
`(DivI + DivF/4096)·S` approximates `F/64` within one part in 4096. -/
theorem c2_divider_bounds (F S : Nat) (h64 : 64 ∣ F) (hS1 : 8000 ≤ S)
    (hS2 : S ≤ 192000) (hFS : 64 * S ≤ F) :
    1 ≤ (computeDivider F S).1 ∧ (computeDivider F S).2 ≤ 4095 ∧
    |(((computeDivider F S).1 : ℚ) + ((computeDivider F S).2 : ℚ) / 4096) * (S : ℚ)
        - (F : ℚ) / 64| ≤ ((F : ℚ) / 64) / 4096 := by
  have hS : 0 < S := by omega
  obtain ⟨cF, rfl⟩ := h64
  have hb : 64 * cF / (CHANLEN * CHANS) = cF := by
    simp [CHANLEN, CHANS]
  have hcd : computeDivider (64 * cF) S =
      (if (cF % S * 4096 + S / 2) / S > 4095
       then (cF / S + 1, 0)
       else (cF / S, (cF % S * 4096 + S / 2) / S)) := by
    simp only [computeDivider, hb]
  have hSb : S ≤ cF := by omega
  have h1 : S * (cF / S) + cF % S = cF := Nat.div_add_mod cF S
  have h2 : cF % S < S := Nat.mod_lt _ hS
  have h3 : S * ((cF % S * 4096 + S / 2) / S) + (cF % S * 4096 + S / 2) % S
      = cF % S * 4096 + S / 2 := Nat.div_add_mod _ S
  have h4 : (cF % S * 4096 + S / 2) % S < S := Nat.mod_lt _ hS
  have h5 : 1 ≤ cF / S := (Nat.one_le_div_iff hS).2 hSb
  by_cases hf : (cF % S * 4096 + S / 2) / S ≤ 4095
  · rw [hcd, if_neg (by omega)]
    refine ⟨h5, hf, ?_⟩
    rw [abs_le]
    have q1 : (S : ℚ) * ((cF / S : Nat) : ℚ) + ((cF % S : Nat) : ℚ) = (cF : ℚ) := by
      exact_mod_cast h1
    have q3 : (S : ℚ) * (((cF % S * 4096 + S / 2) / S : Nat) : ℚ)
        + (((cF % S * 4096 + S / 2) % S : Nat) : ℚ)
        = ((cF % S : Nat) : ℚ) * 4096 + ((S / 2 : Nat) : ℚ) := by
      exact_mod_cast h3
    have q4 : (((cF % S * 4096 + S / 2) % S : Nat) : ℚ) < (S : ℚ) := by
      exact_mod_cast h4
    have qm0 : (0 : ℚ) ≤ (((cF % S * 4096 + S / 2) % S : Nat) : ℚ) := by positivity
    have qr0 : (0 : ℚ) ≤ ((cF % S : Nat) : ℚ) := by positivity
    have q6 : 2 * ((S / 2 : Nat) : ℚ) ≤ (S : ℚ) := by exact_mod_cast by omega
    have q7 : (0 : ℚ) ≤ ((S / 2 : Nat) : ℚ) := by positivity
    have qSb : (S : ℚ) ≤ (cF : ℚ) := by exact_mod_cast hSb
    constructor
    · push_cast
      linarith [q1, q3, q4, qm0, qr0, q6, q7, qSb]
    · push_cast
      linarith [q1, q3, q4, qm0, qr0, q6, q7, qSb]
  · have hf5 : (cF % S * 4096 + S / 2) / S < 4097 :=
      (Nat.div_lt_iff_lt_mul hS).2 (by omega)
    have hf46 : (cF % S * 4096 + S / 2) / S = 4096 := by omega
    rw [hf46] at h3
    rw [hcd, if_pos (by omega)]
    refine ⟨Nat.le_add_left 1 _, by omega, ?_⟩
    rw [abs_le]
    have q1 : (S : ℚ) * ((cF / S : Nat) : ℚ) + ((cF % S : Nat) : ℚ) = (cF : ℚ) := by
      exact_mod_cast h1
    have q3 : (S : ℚ) * 4096 + (((cF % S * 4096 + S / 2) % S : Nat) : ℚ)
        = ((cF % S : Nat) : ℚ) * 4096 + ((S / 2 : Nat) : ℚ) := by
      exact_mod_cast h3
    have q2 : ((cF % S : Nat) : ℚ) < (S : ℚ) := by exact_mod_cast h2
    have qm0 : (0 : ℚ) ≤ (((cF % S * 4096 + S / 2) % S : Nat) : ℚ) := by positivity
    have q6 : 2 * ((S / 2 : Nat) : ℚ) ≤ (S : ℚ) := by exact_mod_cast by omega
    have qSb : (S : ℚ) ≤ (cF : ℚ) := by exact_mod_cast hSb
    constructor
    · push_cast
      linarith [q1, q3, q2, qm0, q6, qSb]
    · push_cast
      linarith [q1, q3, q2, qm0, q6, qSb]

theorem c2_divider_bounds_witness :
    ((64 ∣ 19200000) ∧ 8000 ≤ 44100 ∧ 44100 ≤ 192000 ∧ 64 * 44100 ≤ 19200000) ∧
    (1 ≤ (computeDivider 19200000 44100).1 ∧ (computeDivider 19200000 44100).2 ≤ 4095 ∧
      |(((computeDivider 19200000 44100).1 : ℚ)
          + ((computeDivider 19200000 44100).2 : ℚ) / 4096) * (44100 : ℚ)
          - (19200000 : ℚ) / 64| ≤ ((19200000 : ℚ) / 64) / 4096) :=
  ⟨by decide,
   c2_divider_bounds 19200000 44100 (by decide) (by decide) (by decide) (by decide)⟩

/-- Every effect emitted by the codec command loop is an I2C transaction. -/
lemma writeCommands_all_i2c (env : Env) (addr : Nat) (cmds : List (List Nat)) :
    ((writeCommands env addr cmds).2).all isI2CWrite = true := by
  induction cmds with
  | nil => rfl
  | cons c rest ih =>
    by_cases h : env.i2cWrite addr c = 2
    · rw [writeCommands, if_pos h]
      simp [isI2CWrite, ih]
    · rw [writeCommands, if_neg h]
      simp [isI2CWrite]

/-- Every effect emitted by the codec bring-up step is an I2C transaction. -/
lemma startCodec_all_i2c (cfg : Config) (env : Env) (s : DeviceState) :
    ((startCodec cfg env s).2.2).all isI2CWrite = true := by
  simp only [startCodec]
  split_ifs <;>
    simp [List.all_append, writeCommands_all_i2c, InitPCM51xx, InitWM8960]

/-- Membership form of `startCodec_all_i2c`. -/
lemma startCodec_mem_i2c (cfg : Config) (env : Env) (s : DeviceState) :
    ∀ e ∈ (startCodec cfg env s).2.2, isI2CWrite e = true := by
  have h := startCodec_all_i2c cfg env s
  rw [List.all_eq_true] at h
  exact h

/-- C5: with the codec step enabled (mode not RX-only, I2C master supplied,
not yet initialized, not faulted), an explicit address of 0x1A selects
Variant B (WM8960) and any other nonzero address selects Variant A
(PCM51xx); a failure there sets the fault flag and makes `Start` return
failure with exactly that variant's transactions as its trace.  Address 0
probes Variant A at 0x4C, then Variant A at 0x4D, then Variant B at 0x1A,
and even when all three candidates fail the codec step succeeds (with the
three probe traces in order) and `Start`'s result is decided by the DMA
pipeline starts alone. -/
theorem c5_codec_selection (cfg : Config) (env : Env) (s : DeviceState)
    (hM : cfg.deviceMode ≠ TDeviceMode.DeviceModeRXOnly)
    (hI : cfg.hasI2CMaster = true)
    (hE : s.bError = false) (hC : s.bI2CInited = false) :
    (cfg.i2cAddress = 0x1A → (InitWM8960 env 0x1A).1 = true →
      startCodec cfg env s
        = (true, { s with bI2CInited := true }, (InitWM8960 env 0x1A).2))
    ∧ (cfg.i2cAddress = 0x1A → (InitWM8960 env 0x1A).1 = false →
      Start cfg env s
        = (false, { s with bError := true }, (InitWM8960 env 0x1A).2))
    ∧ (cfg.i2cAddress ≠ 0 → cfg.i2cAddress ≠ 0x1A →
      (InitPCM51xx env cfg.i2cAddress).1 = true →
      startCodec cfg env s
        = (true, { s with bI2CInited := true }, (InitPCM51xx env cfg.i2cAddress).2))
    ∧ (cfg.i2cAddress ≠ 0 → cfg.i2cAddress ≠ 0x1A →
      (InitPCM51xx env cfg.i2cAddress).1 = false →
      Start cfg env s
        = (false, { s with bError := true }, (InitPCM51xx env cfg.i2cAddress).2))
    ∧ (cfg.i2cAddress = 0 →
      (InitPCM51xx env 0x4C).1 = false → (InitPCM51xx env 0x4D).1 = false →
      startCodec cfg env s
        = (true, { s with bI2CInited := true },
            (InitPCM51xx env 0x4C).2 ++ (InitPCM51xx env 0x4D).2
              ++ (InitWM8960 env 0x1A).2))
    ∧ (cfg.i2cAddress = 0 → env.txStartOk = true → env.rxStartOk = true →
      (Start cfg env s).1 = true) := by
  have hcond : cfg.deviceMode ≠ TDeviceMode.DeviceModeRXOnly
      ∧ cfg.hasI2CMaster = true ∧ s.bI2CInited = false := ⟨hM, hI, hC⟩
  refine ⟨?_, ?_, ?_, ?_, ?_, ?_⟩
  · intro hA hok
    simp [startCodec, hcond, hA, hok]
  · intro hA hbad
    simp [Start, hE, startCodec, hcond, hA, hbad]
  · intro h0 hA hok
    simp [startCodec, hcond, h0, hA, hok]
  · intro h0 hA hbad
    simp [Start, hE, startCodec, hcond, h0, hA, hbad]
  · intro h0 h4C h4D
    simp [startCodec, hcond, h0, h4C, h4D]
  · intro h0 htx hrx
    by_cases h4C : (InitPCM51xx env 0x4C).1 = true
    · simp [Start, hE, startCodec, hcond, h0, h4C, htx, hrx]
    · by_cases h4D : (InitPCM51xx env 0x4D).1 = true
      · simp [Start, hE, startCodec, hcond, h0, h4C, h4D, htx, hrx]
      · simp [Start, hE, startCodec, hcond, h0, h4C, h4D, htx, hrx]

/-- An environment whose I2C writes all fail (transfer 0 bytes) and whose
DMA pipeline starts succeed. -/
def envAllFail : Env := ⟨fun _ _ => 0, true, true, fun _ => 0⟩

/-- An environment in which every external call succeeds. -/
def envAllOk : Env := ⟨fun _ _ => 2, true, true, fun _ => 0⟩

theorem c5_codec_selection_witness :
    (InitWM8960 envAllFail 0x1A).1 = false ∧
    Start ⟨TDeviceMode.DeviceModeTXRX, true, 0x1A, 32⟩ envAllFail ⟨false, false⟩
      = (false, ⟨true, false⟩, (InitWM8960 envAllFail 0x1A).2) :=
  ⟨by decide,
   (c5_codec_selection ⟨TDeviceMode.DeviceModeTXRX, true, 0x1A, 32⟩ envAllFail
      ⟨false, false⟩ (by decide) rfl rfl rfl).2.1 rfl (by decide)⟩

/-- The DREQ-threshold effects contain no I2C transaction. -/
lemma dreq_filter_i2c (cfg : Config) :
    (dreqEffects cfg).filter isI2CWrite = [] := by
  unfold dreqEffects
  split_ifs <;> simp [isI2CWrite]

/-- Once `m_bI2CInited` or `m_bError` is set, `Start` issues no I2C
transaction and preserves that condition. -/
lemma start_inv_no_i2c (cfg : Config) (env : Env) (s : DeviceState)
    (h : s.bI2CInited = true ∨ s.bError = true) :
    (Start cfg env s).2.2.filter isI2CWrite = []
    ∧ ((Start cfg env s).2.1.bI2CInited = true
        ∨ (Start cfg env s).2.1.bError = true) := by
  by_cases he : s.bError = true
  · simp [Start, he]
  · rcases h with h | h
    · have hsc : startCodec cfg env s = (true, s, []) := by
        simp [startCodec, h]
      simp only [Start, hsc, he]
      split_ifs <;>
        simp [List.filter_append, dreq_filter_i2c, isI2CWrite, h]
    · exact absurd h he

/-- Across any sequence of further `Start` calls from a state satisfying the
invariant, no call issues an I2C transaction. -/
lemma startSeq_all_no_i2c (cfg : Config) (envs : List Env) (s : DeviceState)
    (h : s.bI2CInited = true ∨ s.bError = true) :
    ((startSeq cfg envs s).2).all
      (fun tr => (tr.filter isI2CWrite).isEmpty) = true := by
  induction envs generalizing s with
  | nil => rfl
  | cons e es ih =>
    have h1 := start_inv_no_i2c cfg e s h
    simp only [startSeq, List.all_cons, Bool.and_eq_true]
    exact ⟨by simp [h1.1], ih _ h1.2⟩

/-- A `Start` call that reaches the codec bring-up step leaves a state with
`m_bI2CInited` or `m_bError` set. -/
lemma start_reached_inv (cfg : Config) (env : Env) (s : DeviceState)
    (hM : cfg.deviceMode ≠ TDeviceMode.DeviceModeRXOnly)
    (hI : cfg.hasI2CMaster = true)
    (hE : s.bError = false) (hC : s.bI2CInited = false) :
    (Start cfg env s).2.1.bI2CInited = true
      ∨ (Start cfg env s).2.1.bError = true := by
  have hcond : cfg.deviceMode ≠ TDeviceMode.DeviceModeRXOnly
      ∧ cfg.hasI2CMaster = true ∧ s.bI2CInited = false := ⟨hM, hI, hC⟩
  have hsc : (startCodec cfg env s).2.1.bI2CInited = true
      ∨ (startCodec cfg env s).2.1.bError = true := by
    simp only [startCodec, if_pos hcond]
    split_ifs <;> simp
  simp only [Start, hE]
  split_ifs <;> first
    | exact (by assumption : False).elim
    | exact hsc
    | (rcases hsc with h | h <;> simp [h])

/-- C6: after a first `Start` call made from a state in which the codec
bring-up step is reached (mode not RX-only, I2C master supplied, no fault,
not yet initialized), every subsequent `Start` call — however many and with
whatever outcomes of the external calls — issues no two-wire control-bus
transaction. -/
theorem c6_codec_bringup_once (cfg : Config) (env1 : Env) (envs : List Env)
    (s : DeviceState)
    (hM : cfg.deviceMode ≠ TDeviceMode.DeviceModeRXOnly)
    (hI : cfg.hasI2CMaster = true)
    (hE : s.bError = false) (hC : s.bI2CInited = false) :
    ((startSeq cfg envs (Start cfg env1 s).2.1).2).all
      (fun tr => (tr.filter isI2CWrite).isEmpty) = true :=
  startSeq_all_no_i2c cfg envs _ (start_reached_inv cfg env1 s hM hI hE hC)

theorem c6_codec_bringup_once_witness :
    ((startSeq ⟨TDeviceMode.DeviceModeTXRX, true, 0, 32⟩ [envAllOk, envAllFail]
        (Start ⟨TDeviceMode.DeviceModeTXRX, true, 0, 32⟩ envAllFail
          ⟨false, false⟩).2.1).2).all
      (fun tr => (tr.filter isI2CWrite).isEmpty) = true :=
  c6_codec_bringup_once ⟨TDeviceMode.DeviceModeTXRX, true, 0, 32⟩ envAllFail
    [envAllOk, envAllFail] ⟨false, false⟩ (by decide) rfl rfl rfl

/-- A fatal codec step leaves the fault flag set. -/
lemma startCodec_fail_error (cfg : Config) (env : Env) (s : DeviceState) :
    (startCodec cfg env s).1 = false → (startCodec cfg env s).2.1.bError = true := by
  simp only [startCodec]
  split_ifs <;> simp

/-- The codec step's trace contains no TX/RX-enable register write. -/
lemma codec_filter_txrx (cfg : Config) (env : Env) (s : DeviceState) :
    ((startCodec cfg env s).2.2).filter isTxRxOnWrite = [] := by
  rw [List.filter_eq_nil_iff]
  intro e he
  have h := startCodec_mem_i2c cfg env s e he
  cases e <;> simp_all [isI2CWrite, isTxRxOnWrite]

/-- The codec step's trace contains no DMA-cancel request. -/
lemma codec_no_cancel (cfg : Config) (env : Env) (s : DeviceState) :
    Effect.dmaCancelTx ∉ (startCodec cfg env s).2.2 := by
  intro he
  have h := startCodec_mem_i2c cfg env s _ he
  simp [isI2CWrite] at h

/-- The DREQ-threshold effects contain no TX/RX-enable write. -/
lemma dreq_filter_txrx (cfg : Config) :
    (dreqEffects cfg).filter isTxRxOnWrite = [] := by
  unfold dreqEffects
  split_ifs <;> rfl

/-- The DREQ-threshold effects contain no DMA-cancel request. -/
lemma dreq_no_cancel (cfg : Config) :
    Effect.dmaCancelTx ∉ dreqEffects cfg := by
  unfold dreqEffects
  split_ifs <;> simp

/-- The optional TX DMA-start effect is not a TX/RX-enable write. -/
lemma filter_txrx_ite_tx (P : Prop) [Decidable P] :
    ((if P then [Effect.dmaStartTx] else []) : List Effect).filter
      isTxRxOnWrite = [] := by
  split_ifs <;> rfl

/-- The optional RX DMA-start effect is not a TX/RX-enable write. -/
lemma filter_txrx_ite_rx (P : Prop) [Decidable P] :
    ((if P then [Effect.dmaStartRx] else []) : List Effect).filter
      isTxRxOnWrite = [] := by
  split_ifs <;> rfl

/-- C7: `Start` writes the TX/RX-enable bits only as its very last effect
and only when every DMA sub-pipeline the mode requires has started
successfully; if a DMA sub-pipeline start fails, `Start` sets the fault
flag and returns failure without writing the enable bits, leaving an
already-started TX sub-pipeline running (no cancel is requested). -/
theorem c7_dma_before_enable (cfg : Config) (env : Env) (s : DeviceState) :
    ((Start cfg env s).1 = false →
      ((Start cfg env s).2.2).filter isTxRxOnWrite = []
        ∧ (s.bError = false → (Start cfg env s).2.1.bError = true))
    ∧ ((Start cfg env s).1 = true →
      ∃ pre, (Start cfg env s).2.2 = pre ++ [Effect.csTxRxOn (txrxBits cfg)]
        ∧ pre.filter isTxRxOnWrite = []
        ∧ (cfg.deviceMode ≠ TDeviceMode.DeviceModeRXOnly →
            env.txStartOk = true ∧ Effect.dmaStartTx ∈ pre)
        ∧ (cfg.deviceMode ≠ TDeviceMode.DeviceModeTXOnly →
            env.rxStartOk = true ∧ Effect.dmaStartRx ∈ pre))
    ∧ (s.bError = false → (startCodec cfg env s).1 = true →
      cfg.deviceMode = TDeviceMode.DeviceModeTXRX →
      env.txStartOk = true → env.rxStartOk = false →
        (Start cfg env s).1 = false
          ∧ Effect.dmaStartTx ∈ (Start cfg env s).2.2
          ∧ Effect.dmaCancelTx ∉ (Start cfg env s).2.2
          ∧ ((Start cfg env s).2.2).filter isTxRxOnWrite = []) := by
  have hceT := codec_filter_txrx cfg env s
  have hceC := codec_no_cancel cfg env s
  by_cases he : s.bError = true
  · refine ⟨fun _ => ⟨by simp [Start, he], fun h => absurd he (by simp [h])⟩,
      fun h => ?_, fun h => absurd he (by simp [h])⟩
    rw [show (Start cfg env s).1 = false by simp [Start, he]] at h
    cases h
  · have he' : s.bError = false := by simpa using he
    rcases hsc : (startCodec cfg env s).1 with _ | _
    · -- codec step fatal
      have hcs := startCodec_fail_error cfg env s hsc
      have h1 : (Start cfg env s).1 = false := by simp [Start, he', hsc]
      refine ⟨fun _ => ⟨?_, fun _ => ?_⟩, fun h => ?_, fun _ hsc1 => ?_⟩
      · simp [Start, he', hsc, hceT]
      · simpa [Start, he', hsc] using hcs
      · rw [h1] at h; cases h
      · cases hsc1
    · -- codec step ok
      by_cases htx : cfg.deviceMode ≠ TDeviceMode.DeviceModeRXOnly
          ∧ env.txStartOk = false
      · -- TX pipeline start fails
        have h1 : (Start cfg env s).1 = false := by simp [Start, he', hsc, htx]
        refine ⟨fun _ => ⟨?_, fun _ => ?_⟩, fun h => ?_, ?_⟩
        · simp [Start, he', hsc, htx, List.filter_append, hceT, dreq_filter_txrx,
            isTxRxOnWrite]
        · simp [Start, he', hsc, htx]
        · rw [h1] at h; cases h
        · intro _ _ _ htxok _
          exact absurd htxok (by simp [htx.2])
      · by_cases hrx : cfg.deviceMode ≠ TDeviceMode.DeviceModeTXOnly
            ∧ env.rxStartOk = false
        · -- RX pipeline start fails (TX already started if the mode has TX)
          have h1 : (Start cfg env s).1 = false := by simp [Start, he', hsc, htx, hrx]
          refine ⟨fun _ => ⟨?_, fun _ => ?_⟩, fun h => ?_, ?_⟩
          · simp [Start, he', hsc, htx, hrx, List.filter_append, hceT,
              dreq_filter_txrx, filter_txrx_ite_tx, isTxRxOnWrite]
          · simp [Start, he', hsc, htx, hrx]
          · rw [h1] at h; cases h
          · intro _ _ hmode htxok hrxok
            refine ⟨h1, ?_, ?_, ?_⟩
            · simp [Start, he', hsc, htx, hrx, List.mem_append, hmode, htxok]
            · simp [Start, he', hsc, htx, hrx, List.mem_append, hmode, htxok,
                hceC, dreq_no_cancel]
            · simp [Start, he', hsc, htx, hrx, List.filter_append, hceT,
                dreq_filter_txrx, filter_txrx_ite_tx, isTxRxOnWrite, hmode,
                htxok]
        · -- both required pipelines started
          have h1 : (Start cfg env s).1 = true := by simp [Start, he', hsc, htx, hrx]
          refine ⟨fun h => ?_, fun _ => ?_, ?_⟩
          · rw [h1] at h; cases h
          · refine ⟨(startCodec cfg env s).2.2 ++ dreqEffects cfg ++ [Effect.csDmaEn]
              ++ (if cfg.deviceMode ≠ TDeviceMode.DeviceModeRXOnly then
                    [Effect.dmaStartTx] else [])
              ++ (if cfg.deviceMode ≠ TDeviceMode.DeviceModeTXOnly then
                    [Effect.dmaStartRx] else []), ?_, ?_, ?_, ?_⟩
            · simp [Start, he', hsc, htx, hrx]
            · simp [List.filter_append, hceT, dreq_filter_txrx,
                filter_txrx_ite_tx, filter_txrx_ite_rx, isTxRxOnWrite]
            · intro hmode
              refine ⟨?_, by simp [List.mem_append, hmode]⟩
              rcases Bool.eq_false_or_eq_true env.txStartOk with hb | hb
              · exact hb
              · exact absurd ⟨hmode, hb⟩ htx
            · intro hmode
              refine ⟨?_, by simp [List.mem_append, hmode]⟩
              rcases Bool.eq_false_or_eq_true env.rxStartOk with hb | hb
              · exact hb
              · exact absurd ⟨hmode, hb⟩ hrx
          · intro _ _ hmode _ hrxok
            exact absurd ⟨by simp [hmode], hrxok⟩ hrx

/-- An environment whose TX DMA start succeeds but whose RX DMA start
fails (and whose I2C writes succeed). -/
def envRxFail : Env := ⟨fun _ _ => 2, true, false, fun _ => 0⟩

theorem c7_dma_before_enable_witness :
    (Start ⟨TDeviceMode.DeviceModeTXRX, true, 0, 32⟩ envRxFail ⟨false, false⟩).1 = false
    ∧ Effect.dmaStartTx
        ∈ (Start ⟨TDeviceMode.DeviceModeTXRX, true, 0, 32⟩ envRxFail ⟨false, false⟩).2.2
    ∧ Effect.dmaCancelTx
        ∉ (Start ⟨TDeviceMode.DeviceModeTXRX, true, 0, 32⟩ envRxFail ⟨false, false⟩).2.2
    ∧ ((Start ⟨TDeviceMode.DeviceModeTXRX, true, 0, 32⟩ envRxFail
          ⟨false, false⟩).2.2).filter isTxRxOnWrite = [] :=
  (c7_dma_before_enable ⟨TDeviceMode.DeviceModeTXRX, true, 0, 32⟩ envRxFail
    ⟨false, false⟩).2.2 rfl (by decide) rfl rfl rfl

/-- An effect that is not an I2C write never occurs in the codec step. -/
lemma codec_not_mem_of_not_i2c (cfg : Config) (env : Env) (s : DeviceState)
    (e : Effect) (h : isI2CWrite e = false) :
    e ∉ (startCodec cfg env s).2.2 := by
  intro he
  have hi := startCodec_mem_i2c cfg env s e he
  rw [h] at hi
  cases hi

/-- The DREQ-threshold effects never contain an RX DMA-pipeline start. -/
lemma dreq_no_dmaRx (cfg : Config) :
    Effect.dmaStartRx ∉ dreqEffects cfg := by
  unfold dreqEffects
  split_ifs <;> simp

/-- C8: with `DeviceMode = TXOnly` the data-in pin is never claimed and the
RX completion handler is never registered with the DMA controller (no RX
DMA-pipeline start appears in any `Start` trace); with `DeviceMode = RXOnly`
the codec bring-up step is skipped entirely (no two-wire transaction in any
`Start` trace) and the data-out pin is never claimed. -/
theorem c8_mode_gating (cfg : Config) (env : Env) (s : DeviceState)
    (bSlave : Bool) (model : TMachineModel) :
    (cfg.deviceMode = TDeviceMode.DeviceModeTXOnly →
      (RunI2S cfg bSlave model).filter (claimsPin PinRole.pcmDIN) = []
        ∧ Effect.dmaStartRx ∉ (Start cfg env s).2.2)
    ∧ (cfg.deviceMode = TDeviceMode.DeviceModeRXOnly →
      ((Start cfg env s).2.2).filter isI2CWrite = []
        ∧ (RunI2S cfg bSlave model).filter (claimsPin PinRole.pcmDOUT) = []) := by
  have hcrx : Effect.dmaStartRx ∉ (startCodec cfg env s).2.2 :=
    codec_not_mem_of_not_i2c cfg env s _ rfl
  constructor
  · intro hmode
    constructor
    · simp [RunI2S, hmode, claimsPin, List.filter_append]
    · by_cases he : s.bError = true
      · simp [Start, he]
      · have he' : s.bError = false := by simpa using he
        rcases hsc : (startCodec cfg env s).1 with _ | _
        · simpa [Start, he', hsc] using hcrx
        · by_cases htex : env.txStartOk = false
          · simp [Start, he', hsc, hmode, htex, List.mem_append, hcrx,
              dreq_no_dmaRx]
          · simp [Start, he', hsc, hmode, htex, List.mem_append, hcrx,
              dreq_no_dmaRx]
  · intro hmode
    constructor
    · by_cases he : s.bError = true
      · simp [Start, he]
      · have he' : s.bError = false := by simpa using he
        have hsc2 : startCodec cfg env s = (true, s, []) := by
          simp [startCodec, hmode]
        by_cases hrx : env.rxStartOk = false
        · simp [Start, he', hsc2, hmode, hrx, List.filter_append,
            dreq_filter_i2c, isI2CWrite]
        · simp [Start, he', hsc2, hmode, hrx, List.filter_append,
            dreq_filter_i2c, isI2CWrite]
    · simp [RunI2S, hmode, claimsPin, List.filter_append]

theorem c8_mode_gating_witness :
    ((RunI2S ⟨TDeviceMode.DeviceModeTXOnly, true, 0, 32⟩ false
        TMachineModel.MachineModelOther).filter (claimsPin PinRole.pcmDIN) = []
      ∧ Effect.dmaStartRx ∉ (Start ⟨TDeviceMode.DeviceModeTXOnly, true, 0, 32⟩
          envAllOk ⟨false, false⟩).2.2)
    ∧ (((Start ⟨TDeviceMode.DeviceModeRXOnly, true, 0, 32⟩ envAllOk
          ⟨false, false⟩).2.2).filter isI2CWrite = []
      ∧ (RunI2S ⟨TDeviceMode.DeviceModeRXOnly, true, 0, 32⟩ false
          TMachineModel.MachineModelOther).filter (claimsPin PinRole.pcmDOUT) = []) :=
  ⟨(c8_mode_gating ⟨TDeviceMode.DeviceModeTXOnly, true, 0, 32⟩ envAllOk
      ⟨false, false⟩ false TMachineModel.MachineModelOther).1 rfl,
   (c8_mode_gating ⟨TDeviceMode.DeviceModeRXOnly, true, 0, 32⟩ envAllOk
      ⟨false, false⟩ false TMachineModel.MachineModelOther).2 rfl⟩

end Circle
